import Mathlib

/-!
A shallow embedding of the Morse-code video decoder repository
(`morse_decoder.py`, `video_processor.py`, `webcam_processor.py`,
`generate_morse_video.py`).

Frames are modelled by the normalized ROI intensity they produce: the
generator draws a pure-white disc (radius 50) on black, and the 64×64 ROI
centred on the brightest point lies entirely inside the disc, so an ON
frame has mean intensity 255/255 = 1 and an OFF frame 0/255 = 0.  All
floating-point arithmetic of the source is modelled exactly over ℚ.
-/

namespace Morse

/-- Table `MORSE_CODE` of `morse_decoder.py` (symbol string → character). -/
def MORSE_CODE : List (String × Char) :=
  [(".-", 'A'), ("-...", 'B'), ("-.-.", 'C'), ("-..", 'D'), (".", 'E'),
   ("..-.", 'F'), ("--.", 'G'), ("....", 'H'), ("..", 'I'), (".---", 'J'),
   ("-.-", 'K'), (".-..", 'L'), ("--", 'M'), ("-.", 'N'), ("---", 'O'),
   (".--.", 'P'), ("--.-", 'Q'), (".-.", 'R'), ("...", 'S'), ("-", 'T'),
   ("..-", 'U'), ("...-", 'V'), (".--", 'W'), ("-..-", 'X'), ("-.--", 'Y'),
   ("--..", 'Z'), ("-----", '0'), (".----", '1'), ("..---", '2'), ("...--", '3'),
   ("....-", '4'), (".....", '5'), ("-....", '6'), ("--...", '7'), ("---..", '8'),
   ("----.", '9')]

/-- Lookup `MORSE_CODE.get(symbol_str, chr_qm)` of `morse_decoder.py::decode_symbol`, defaulting to the question mark. -/
def morseLookup (s : String) : Char :=
  ((MORSE_CODE.find? (fun p => p.1 = s)).map Prod.snd).getD '?'

/-- Insert into a sorted list of rationals, keeping it sorted. -/
def insertSorted (x : ℚ) : List ℚ → List ℚ
  | [] => [x]
  | y :: ys => if x ≤ y then x :: y :: ys else y :: insertSorted x ys

/-- Sort a list of rationals (insertion sort). -/
def sortRats (l : List ℚ) : List ℚ := l.foldr insertSorted []

/-- Median as computed by `np.median` and `statistics.median` on a list of rationals: middle element of
the sorted list for odd length, mean of the two middle elements for even length. -/
def npMedian (l : List ℚ) : ℚ :=
  let s := sortRats l
  let n := l.length
  if n % 2 = 1 then s.getD (n / 2) 0
  else (s.getD (n / 2 - 1) 0 + s.getD (n / 2) 0) / 2

/-- Append to a `collections.deque(maxlen=cap)`: add on the right, evict from the
left once the capacity is exceeded. -/
def dequePush (cap : Nat) (l : List ℚ) (x : ℚ) : List ℚ :=
  let l2 := l ++ [x]
  if cap < l2.length then l2.drop (l2.length - cap) else l2

/-- The mutable state of `MorseVideoDecoder.__init__` (signal, timing, state and
decoding fields; the ROI itself is abstracted away since frames are modelled by
their ROI intensity).  Defaults are the constructor's values. -/
structure Decoder where
  threshold_high : ℚ := 2/5
  threshold_low : ℚ := 1/10
  max_intensity : ℚ := 1/2
  unit_duration : ℚ := 1/10
  baseline : Option ℚ := none
  intensity_buffer : List ℚ := []
  current_state : Bool := false
  state_start_time : ℚ := 0
  durations_on : List ℚ := []
  durations_off : List ℚ := []
  current_symbol : List Char := []
  decoded_text : String := ""
  adaptive_threshold : Bool := true
deriving Repr, DecidableEq

/-- Constant `self.baseline_alpha = 0.02`. -/
def baseline_alpha : ℚ := 1/50

/-- Constant `self.unit_min = 0.02`. -/
def unit_min : ℚ := 1/50

/-- Constant `self.unit_max = 0.25`. -/
def unit_max : ℚ := 1/4

/-- Constant `self.unit_alpha = 0.1`. -/
def unit_alpha : ℚ := 1/10

/-- Model of `MorseVideoDecoder.extract_intensity`, given the raw normalized ROI mean
`intensity`: update the baseline (initialize on the first frame, otherwise EMA
only below 0.5), update the running maximum and — when adaptive thresholding is
on and the dynamic range exceeds 0.2 — recompute the thresholds, then push into
the 5-wide smoothing deque and return its median. -/
def extract_intensity (d : Decoder) (intensity : ℚ) : Decoder × ℚ :=
  let d1 :=
    match d.baseline with
    | none => { d with baseline := some intensity }
    | some b =>
        if intensity < 1/2 then
          { d with baseline := some ((1 - baseline_alpha) * b + baseline_alpha * intensity) }
        else d
  let d2 :=
    if intensity > d1.max_intensity then
      let dm := { d1 with max_intensity := intensity }
      match dm.baseline with
      | some b =>
          if dm.adaptive_threshold then
            let range := dm.max_intensity - b
            if range > 1/5 then
              { dm with threshold_low := b + (1/5) * range,
                        threshold_high := b + (3/5) * range }
            else dm
          else dm
      | none => dm
    else d1
  let buf := dequePush 5 d2.intensity_buffer intensity
  ({ d2 with intensity_buffer := buf }, npMedian buf)

/-- Model of `MorseVideoDecoder.detect_state`: hysteresis thresholding. -/
def detect_state (d : Decoder) (intensity : ℚ) : Bool :=
  if intensity > d.threshold_high then true
  else if intensity < d.threshold_low then false
  else d.current_state

/-- Model of `MorseVideoDecoder.update_unit_estimate`: once at least 5 pooled ON/OFF
durations exist, clip the pooled median divided by 1.5 to `[unit_min, unit_max]`
and blend it into the unit estimate with EMA rate 0.1. -/
def update_unit_estimate (d : Decoder) : Decoder :=
  let all_durations := d.durations_on ++ d.durations_off
  if all_durations.length < 5 then d
  else
    let median_duration := npMedian all_durations
    let new_unit := min (max (median_duration / (3/2)) unit_min) unit_max
    { d with unit_duration := (1 - unit_alpha) * d.unit_duration + unit_alpha * new_unit }

/-- The five duration classes of `MorseVideoDecoder.classify_duration`. -/
inductive DurClass
  | dot | dash | intra | letter | word
deriving Repr, DecidableEq

/-- Model of `MorseVideoDecoder.classify_duration`. -/
def classify_duration (d : Decoder) (duration : ℚ) (is_on : Bool) : DurClass :=
  let units := duration / d.unit_duration
  if is_on then
    if units < 9/5 then .dot else .dash
  else
    if units < 9/5 then .intra
    else if units < 9/2 then .letter
    else .word

/-- Model of `MorseVideoDecoder.decode_symbol`: empty buffer yields `none`; otherwise
look the joined symbol string up (unknown → `'?'`) and clear the buffer. -/
def decode_symbol (d : Decoder) : Decoder × Option Char :=
  if d.current_symbol = [] then (d, none)
  else
    ({ d with current_symbol := [] }, some (morseLookup (String.mk d.current_symbol)))

/-- Model of `MorseVideoDecoder.process_state_change`: debounce, classify the elapsed
interval, update histories/symbol buffer/decoded text, re-estimate the unit,
and advance the state and its start time. -/
def process_state_change (d : Decoder) (new_state : Bool) (timestamp : ℚ) : Decoder :=
  let duration := timestamp - d.state_start_time
  if duration < 1/50 then d
  else
    let d1 :=
      if d.current_state then
        let dOn := { d with durations_on := dequePush 20 d.durations_on duration }
        match classify_duration dOn duration true with
        | .dot => { dOn with current_symbol := dOn.current_symbol ++ ['.'] }
        | .dash => { dOn with current_symbol := dOn.current_symbol ++ ['-'] }
        | _ => dOn
      else
        if duration > 1/50 then
          let dOff := { d with durations_off := dequePush 20 d.durations_off duration }
          match classify_duration dOff duration false with
          | .letter =>
              let p := decode_symbol dOff
              match p.2 with
              | some ch => { p.1 with decoded_text := p.1.decoded_text.push ch }
              | none => p.1
          | .word =>
              let p := decode_symbol dOff
              let dW :=
                match p.2 with
                | some ch => { p.1 with decoded_text := p.1.decoded_text.push ch }
                | none => p.1
              { dW with decoded_text := dW.decoded_text ++ " " }
          | _ => dOff
        else d
    let d2 := update_unit_estimate d1
    { d2 with current_state := new_state, state_start_time := timestamp }

/-- One iteration of the frame loop of `video_processor.py::process_video`
(also `webcam_processor.py::process_webcam`): timestamp `k / fps`, intensity
extraction, hysteresis detection, and `process_state_change` on a change. -/
def stepFrame (fps : ℚ) (d : Decoder) (k : Nat) (intensity : ℚ) : Decoder :=
  let timestamp : ℚ := (k : ℚ) / fps
  let p := extract_intensity d intensity
  let new_state := detect_state p.1 p.2
  if new_state ≠ p.1.current_state then process_state_change p.1 new_state timestamp
  else p.1

/-- Run the frame loop over a list of frame intensities starting at index `k`. -/
def runFrames (fps : ℚ) : Decoder → Nat → List ℚ → Decoder
  | d, _, [] => d
  | d, k, i :: rest => runFrames fps (stepFrame fps d k i) (k + 1) rest

/-- The end-of-stream finalization of `video_processor.py::process_video`:
if still ON, synthesize an OFF transition at `timestamp + 1.0`; **else** if a
symbol is pending, flush it (note the `elif`: the two branches are exclusive). -/
def finalize_video (d : Decoder) (lastT : ℚ) : Decoder :=
  if d.current_state then process_state_change d false (lastT + 1)
  else if d.current_symbol ≠ [] then
    let p := decode_symbol d
    match p.2 with
    | some ch => { p.1 with decoded_text := p.1.decoded_text.push ch }
    | none => p.1
  else d

/-- The end-of-stream finalization of `webcam_processor.py::process_webcam`:
if still ON, synthesize an OFF transition at `timestamp + 1.0`; then (a second,
independent `if`) flush any pending symbol. -/
def finalize_webcam (d : Decoder) (lastT : ℚ) : Decoder :=
  let d1 := if d.current_state then process_state_change d false (lastT + 1) else d
  if d1.current_symbol ≠ [] then
    let p := decode_symbol d1
    match p.2 with
    | some ch => { p.1 with decoded_text := p.1.decoded_text.push ch }
    | none => p.1
  else d1

/-- Model of `video_processor.py::process_video` on a stream of frame intensities:
the first frame selects the ROI and sets `state_start_time` to its timestamp 0
(the `Decoder` default), then the frame loop runs and the final state is
flushed; returns `decoded_text`. -/
def process_video (frames : List ℚ) (fps : ℚ) : String :=
  let d := runFrames fps {} 0 frames
  let lastT := ((frames.length : ℚ) - 1) / fps
  (finalize_video d lastT).decoded_text

/-- Table `MORSE_ENCODE` of `generate_morse_video.py`. -/
def MORSE_ENCODE : List (Char × String) :=
  [('A', ".-"), ('B', "-..."), ('C', "-.-."), ('D', "-.."), ('E', "."),
   ('F', "..-."), ('G', "--."), ('H', "...."), ('I', ".."), ('J', ".---"),
   ('K', "-.-"), ('L', ".-.."), ('M', "--"), ('N', "-."), ('O', "---"),
   ('P', ".--."), ('Q', "--.-"), ('R', ".-."), ('S', "..."), ('T', "-"),
   ('U', "..-"), ('V', "...-"), ('W', ".--"), ('X', "-..-"), ('Y', "-.--"),
   ('Z', "--.."), ('0', "-----"), ('1', ".----"), ('2', "..---"),
   ('3', "...--"), ('4', "....-"), ('5', "....."), ('6', "-...."),
   ('7', "--..."), ('8', "---.."), ('9', "----.")]

/-- Join as in `str.join` with a single space: interleave a single space character between the pieces. -/
def joinWithSpace : List (List Char) → List Char
  | [] => []
  | [l] => l
  | l :: l2 :: rest => l ++ ' ' :: joinWithSpace (l2 :: rest)

/-- Split as in `str.split` with a single-space separator: split on every single space (empty pieces kept;
splitting the empty string yields one empty piece). -/
def splitOnSpaceAux : List Char → List Char → List (List Char)
  | [], acc => [acc.reverse]
  | c :: cs, acc =>
      if c = ' ' then acc.reverse :: splitOnSpaceAux cs []
      else splitOnSpaceAux cs (c :: acc)

/-- Split a string on single spaces, as `str.split` does with an explicit separator. -/
def splitOnSpace (s : String) : List String :=
  (splitOnSpaceAux s.toList []).map String.mk

/-- Model of `generate_morse_video.py::text_to_morse`: uppercase, map spaces to `"/"`,
drop unsupported characters, join letter codes with single spaces. -/
def text_to_morse (text : String) : String :=
  String.mk (joinWithSpace
    ((text.toList.map Char.toUpper).filterMap (fun c =>
      if c = ' ' then some ['/']
      else (MORSE_ENCODE.find? (fun p => p.1 = c)).map (fun p => p.2.toList))))

/-- One dot or dash of `generate_timing_pattern`: dot = 1 unit ON,
dash = 3 units ON (any other character contributes nothing). -/
def symPattern (c : Char) (u : ℚ) : List (Bool × ℚ) :=
  if c = '.' then [(true, u)]
  else if c = '-' then [(true, 3 * u)]
  else []

/-- The inner loop of `generate_timing_pattern` over one letter: a 1-unit OFF
gap after every symbol except the last. -/
def letterPattern : List Char → ℚ → List (Bool × ℚ)
  | [], _ => []
  | [c], u => symPattern c u
  | c :: c2 :: rest, u => symPattern c u ++ (false, u) :: letterPattern (c2 :: rest) u

/-- The outer loop of `generate_timing_pattern` over the space-separated
letters: `"/"` yields a 7-unit OFF gap, and a 3-unit OFF letter gap follows a
letter unless it is last or the next token is `"/"`. -/
def patternAux : List String → ℚ → List (Bool × ℚ)
  | [], _ => []
  | l :: rest, u =>
    if l = "/" then (false, 7 * u) :: patternAux rest u
    else
      letterPattern l.toList u ++
        (match rest with
         | [] => []
         | next :: _ => if next = "/" then [] else [(false, 3 * u)]) ++
        patternAux rest u

/-- Model of `generate_morse_video.py::generate_timing_pattern`. -/
def generate_timing_pattern (morse_code : String) (u : ℚ) : List (Bool × ℚ) :=
  patternAux (splitOnSpace morse_code) u

/-- Python `int(...)` on a nonnegative rational: truncation (= floor). -/
def pyInt (q : ℚ) : Nat := q.num.toNat / q.den

/-- One interval of `create_morse_video`'s frame loop: `int(duration * fps)`
frames, white (ROI intensity 1) when ON and black (ROI intensity 0) when OFF. -/
def intervalFrames (fps : ℚ) (p : Bool × ℚ) : List ℚ :=
  List.replicate (pyInt (p.2 * fps)) (if p.1 then 1 else 0)

/-- Model of `generate_morse_video.py::create_morse_video`, abstracted to the ROI
intensity of each written frame: unit `1.2 / wpm`, the timing pattern of the
text, and a final 3-unit black pause. -/
def create_morse_frames (text : String) (wpm fps : ℚ) : List ℚ :=
  let u := (6/5) / wpm
  let pat := generate_timing_pattern (text_to_morse text) u
  (pat.map (intervalFrames fps)).flatten ++
    List.replicate (pyInt (3 * u * fps)) 0

/-- The decision core of `webcam_processor.py::calibrate_with_pattern`, given
the collected ON (dot) and OFF (gap) durations: with ≥3 dots and ≥2 gaps,
accept with `unit_duration = median dot` iff `1.5 < medianGap/medianDot < 6.0`;
with ≥3 dots and <2 gaps accept on dots alone; otherwise fail and fall back to
the 0.3 s default.  Returns (accepted?, the `unit_duration` it sets). -/
def calibrate_with_pattern (on_durations off_durations : List ℚ) : Bool × ℚ :=
  if 3 ≤ on_durations.length then
    let median_dot := npMedian on_durations
    if 2 ≤ off_durations.length then
      let median_gap := npMedian off_durations
      let ratio := median_gap / median_dot
      if 3/2 < ratio ∧ ratio < 6 then (true, median_dot)
      else (false, 3/10)
    else (true, median_dot)
  else (false, 3/10)

/-- The decision core of `webcam_processor.py::calibrate_timing` (N-blink
protocol): with ≥3 collected blink durations set the unit to their mean,
otherwise fall back to the 0.3 s default. -/
def calibrate_timing (on_durations : List ℚ) : Bool × ℚ :=
  if 3 ≤ on_durations.length then
    (true, on_durations.sum / (on_durations.length : ℚ))
  else (false, 3/10)


/-- Fold the intensity-extraction step of the per-frame pipeline over a list of
raw intensity samples (the decoder-updating part of `extract_intensity`). -/
def foldExtract (d : Decoder) (is : List ℚ) : Decoder :=
  is.foldl (fun d i => (extract_intensity d i).1) d

/-- frames 0..10 -/
def oooC1 : List ℚ := [(1 : ℚ), (1 : ℚ), (1 : ℚ), (1 : ℚ), (1 : ℚ), (1 : ℚ), (1 : ℚ), (1 : ℚ), (1 : ℚ), (0 : ℚ)]
/-- state after frame 10 -/
def oooD1 : Decoder := { threshold_high := ((2 : ℚ)/5), threshold_low := ((1 : ℚ)/10), max_intensity := (1 : ℚ), unit_duration := ((1 : ℚ)/10), baseline := some ((49 : ℚ)/50), intensity_buffer := [(1 : ℚ), (1 : ℚ), (1 : ℚ), (1 : ℚ), (0 : ℚ)], current_state := true, state_start_time := ((1 : ℚ)/30), durations_on := [], durations_off := [((1 : ℚ)/30)], current_symbol := [], decoded_text := "", adaptive_threshold := true }
/-- frames 10..20 -/
def oooC2 : List ℚ := [(0 : ℚ), (0 : ℚ), (1 : ℚ), (1 : ℚ), (1 : ℚ), (1 : ℚ), (1 : ℚ), (1 : ℚ), (1 : ℚ), (1 : ℚ)]
/-- state after frame 20 -/
def oooD2 : Decoder := { threshold_high := ((2 : ℚ)/5), threshold_low := ((1 : ℚ)/10), max_intensity := (1 : ℚ), unit_duration := ((1 : ℚ)/10), baseline := some ((117649 : ℚ)/125000), intensity_buffer := [(1 : ℚ), (1 : ℚ), (1 : ℚ), (1 : ℚ), (1 : ℚ)], current_state := true, state_start_time := ((7 : ℚ)/15), durations_on := [((1 : ℚ)/3)], durations_off := [((1 : ℚ)/30), ((1 : ℚ)/10)], current_symbol := ['-'], decoded_text := "", adaptive_threshold := true }
/-- frames 20..30 -/
def oooC3 : List ℚ := [(1 : ℚ), (0 : ℚ), (0 : ℚ), (0 : ℚ), (1 : ℚ), (1 : ℚ), (1 : ℚ), (1 : ℚ), (1 : ℚ), (1 : ℚ)]
/-- state after frame 30 -/
def oooD3 : Decoder := { threshold_high := ((2 : ℚ)/5), threshold_low := ((1 : ℚ)/10), max_intensity := (1 : ℚ), unit_duration := ((29 : ℚ)/300), baseline := some ((13841287201 : ℚ)/15625000000), intensity_buffer := [(1 : ℚ), (1 : ℚ), (1 : ℚ), (1 : ℚ), (1 : ℚ)], current_state := true, state_start_time := ((13 : ℚ)/15), durations_on := [((1 : ℚ)/3), ((3 : ℚ)/10)], durations_off := [((1 : ℚ)/30), ((1 : ℚ)/10), ((1 : ℚ)/10)], current_symbol := ['-', '-'], decoded_text := "", adaptive_threshold := true }
/-- frames 30..40 -/
def oooC4 : List ℚ := [(1 : ℚ), (1 : ℚ), (1 : ℚ), (0 : ℚ), (0 : ℚ), (0 : ℚ), (0 : ℚ), (0 : ℚ), (0 : ℚ), (0 : ℚ)]
/-- state after frame 40 -/
def oooD4 : Decoder := { threshold_high := ((2 : ℚ)/5), threshold_low := ((1 : ℚ)/10), max_intensity := (1 : ℚ), unit_duration := ((301 : ℚ)/3000), baseline := some ((9387480337647754305649 : ℚ)/12207031250000000000000), intensity_buffer := [(0 : ℚ), (0 : ℚ), (0 : ℚ), (0 : ℚ), (0 : ℚ)], current_state := false, state_start_time := ((7 : ℚ)/6), durations_on := [((1 : ℚ)/3), ((3 : ℚ)/10), ((3 : ℚ)/10)], durations_off := [((1 : ℚ)/30), ((1 : ℚ)/10), ((1 : ℚ)/10)], current_symbol := ['-', '-', '-'], decoded_text := "", adaptive_threshold := true }
/-- frames 40..50 -/
def oooC5 : List ℚ := [(0 : ℚ), (0 : ℚ), (1 : ℚ), (1 : ℚ), (1 : ℚ), (1 : ℚ), (1 : ℚ), (1 : ℚ), (1 : ℚ), (1 : ℚ)]
/-- state after frame 50 -/
def oooD5 : Decoder := { threshold_high := ((2 : ℚ)/5), threshold_low := ((1 : ℚ)/10), max_intensity := (1 : ℚ), unit_duration := ((1103 : ℚ)/10000), baseline := some ((22539340290692258087863249 : ℚ)/30517578125000000000000000), intensity_buffer := [(1 : ℚ), (1 : ℚ), (1 : ℚ), (1 : ℚ), (1 : ℚ)], current_state := true, state_start_time := ((22 : ℚ)/15), durations_on := [((1 : ℚ)/3), ((3 : ℚ)/10), ((3 : ℚ)/10)], durations_off := [((1 : ℚ)/30), ((1 : ℚ)/10), ((1 : ℚ)/10), ((3 : ℚ)/10)], current_symbol := [], decoded_text := "O", adaptive_threshold := true }
/-- frames 50..60 -/
def oooC6 : List ℚ := [(1 : ℚ), (0 : ℚ), (0 : ℚ), (0 : ℚ), (1 : ℚ), (1 : ℚ), (1 : ℚ), (1 : ℚ), (1 : ℚ), (1 : ℚ)]
/-- state after frame 60 -/
def oooD6 : Decoder := { threshold_high := ((2 : ℚ)/5), threshold_low := ((1 : ℚ)/10), max_intensity := (1 : ℚ), unit_duration := ((127343 : ℚ)/1000000), baseline := some ((2651730845859653471779023381601 : ℚ)/3814697265625000000000000000000), intensity_buffer := [(1 : ℚ), (1 : ℚ), (1 : ℚ), (1 : ℚ), (1 : ℚ)], current_state := true, state_start_time := ((28 : ℚ)/15), durations_on := [((1 : ℚ)/3), ((3 : ℚ)/10), ((3 : ℚ)/10), ((3 : ℚ)/10)], durations_off := [((1 : ℚ)/30), ((1 : ℚ)/10), ((1 : ℚ)/10), ((3 : ℚ)/10), ((1 : ℚ)/10)], current_symbol := ['-'], decoded_text := "O", adaptive_threshold := true }
/-- frames 60..70 -/
def oooC7 : List ℚ := [(1 : ℚ), (1 : ℚ), (1 : ℚ), (0 : ℚ), (0 : ℚ), (0 : ℚ), (1 : ℚ), (1 : ℚ), (1 : ℚ), (1 : ℚ)]
/-- state after frame 70 -/
def oooD7 : Decoder := { threshold_high := ((2 : ℚ)/5), threshold_low := ((1 : ℚ)/10), max_intensity := (1 : ℚ), unit_duration := ((14114783 : ℚ)/100000000), baseline := some ((311973482284542371301330321821976049 : ℚ)/476837158203125000000000000000000000), intensity_buffer := [(0 : ℚ), (1 : ℚ), (1 : ℚ), (1 : ℚ), (1 : ℚ)], current_state := true, state_start_time := ((34 : ℚ)/15), durations_on := [((1 : ℚ)/3), ((3 : ℚ)/10), ((3 : ℚ)/10), ((3 : ℚ)/10), ((3 : ℚ)/10)], durations_off := [((1 : ℚ)/30), ((1 : ℚ)/10), ((1 : ℚ)/10), ((3 : ℚ)/10), ((1 : ℚ)/10), ((1 : ℚ)/10)], current_symbol := ['-', '-'], decoded_text := "O", adaptive_threshold := true }
/-- frames 70..80 -/
def oooC8 : List ℚ := [(1 : ℚ), (1 : ℚ), (1 : ℚ), (1 : ℚ), (1 : ℚ), (0 : ℚ), (0 : ℚ), (0 : ℚ), (0 : ℚ), (0 : ℚ)]
/-- state after frame 80 -/
def oooD8 : Decoder := { threshold_high := ((2 : ℚ)/5), threshold_low := ((1 : ℚ)/10), max_intensity := (1 : ℚ), unit_duration := ((147033047 : ℚ)/1000000000), baseline := some ((88124787089723195184393736687912818113311201 : ℚ)/149011611938476562500000000000000000000000000), intensity_buffer := [(0 : ℚ), (0 : ℚ), (0 : ℚ), (0 : ℚ), (0 : ℚ)], current_state := false, state_start_time := ((77 : ℚ)/30), durations_on := [((1 : ℚ)/3), ((3 : ℚ)/10), ((3 : ℚ)/10), ((3 : ℚ)/10), ((3 : ℚ)/10), ((3 : ℚ)/10)], durations_off := [((1 : ℚ)/30), ((1 : ℚ)/10), ((1 : ℚ)/10), ((3 : ℚ)/10), ((1 : ℚ)/10), ((1 : ℚ)/10)], current_symbol := ['-', '-', '-'], decoded_text := "O", adaptive_threshold := true }
/-- frames 80..90 -/
def oooC9 : List ℚ := [(0 : ℚ), (0 : ℚ), (0 : ℚ), (0 : ℚ), (1 : ℚ), (1 : ℚ), (1 : ℚ), (1 : ℚ), (1 : ℚ), (1 : ℚ)]
/-- state after frame 90 -/
def oooD9 : Decoder := { threshold_high := ((2 : ℚ)/5), threshold_low := ((1 : ℚ)/10), max_intensity := (1 : ℚ), unit_duration := ((1523297423 : ℚ)/10000000000), baseline := some ((508021860739623365322188197652216501772434524836001 : ℚ)/931322574615478515625000000000000000000000000000000), intensity_buffer := [(1 : ℚ), (1 : ℚ), (1 : ℚ), (1 : ℚ), (1 : ℚ)], current_state := true, state_start_time := ((43 : ℚ)/15), durations_on := [((1 : ℚ)/3), ((3 : ℚ)/10), ((3 : ℚ)/10), ((3 : ℚ)/10), ((3 : ℚ)/10), ((3 : ℚ)/10)], durations_off := [((1 : ℚ)/30), ((1 : ℚ)/10), ((1 : ℚ)/10), ((3 : ℚ)/10), ((1 : ℚ)/10), ((1 : ℚ)/10), ((3 : ℚ)/10)], current_symbol := [], decoded_text := "OO", adaptive_threshold := true }
/-- frames 90..100 -/
def oooC10 : List ℚ := [(1 : ℚ), (1 : ℚ), (1 : ℚ), (0 : ℚ), (0 : ℚ), (0 : ℚ), (1 : ℚ), (1 : ℚ), (1 : ℚ), (1 : ℚ)]
/-- state after frame 100 -/
def oooD10 : Decoder := { threshold_high := ((2 : ℚ)/5), threshold_low := ((1 : ℚ)/10), max_intensity := (1 : ℚ), unit_duration := ((161387091263 : ℚ)/1000000000000), baseline := some ((59768263894155949306790119265585619217025149412430681649 : ℚ)/116415321826934814453125000000000000000000000000000000000), intensity_buffer := [(0 : ℚ), (1 : ℚ), (1 : ℚ), (1 : ℚ), (1 : ℚ)], current_state := true, state_start_time := ((49 : ℚ)/15), durations_on := [((1 : ℚ)/3), ((3 : ℚ)/10), ((3 : ℚ)/10), ((3 : ℚ)/10), ((3 : ℚ)/10), ((3 : ℚ)/10), ((3 : ℚ)/10)], durations_off := [((1 : ℚ)/30), ((1 : ℚ)/10), ((1 : ℚ)/10), ((3 : ℚ)/10), ((1 : ℚ)/10), ((1 : ℚ)/10), ((3 : ℚ)/10), ((1 : ℚ)/10)], current_symbol := ['-'], decoded_text := "OO", adaptive_threshold := true }
/-- frames 100..110 -/
def oooC11 : List ℚ := [(1 : ℚ), (1 : ℚ), (1 : ℚ), (1 : ℚ), (1 : ℚ), (0 : ℚ), (0 : ℚ), (0 : ℚ), (1 : ℚ), (1 : ℚ)]
/-- state after frame 110 -/
def oooD11 : Decoder := { threshold_high := ((2 : ℚ)/5), threshold_low := ((1 : ℚ)/10), max_intensity := (1 : ℚ), unit_duration := ((1652483821367 : ℚ)/10000000000000), baseline := some ((7031676478883553279994550741476882515263791803223057265323201 : ℚ)/14551915228366851806640625000000000000000000000000000000000000), intensity_buffer := [(0 : ℚ), (0 : ℚ), (0 : ℚ), (1 : ℚ), (1 : ℚ)], current_state := false, state_start_time := ((107 : ℚ)/30), durations_on := [((1 : ℚ)/3), ((3 : ℚ)/10), ((3 : ℚ)/10), ((3 : ℚ)/10), ((3 : ℚ)/10), ((3 : ℚ)/10), ((3 : ℚ)/10), ((3 : ℚ)/10)], durations_off := [((1 : ℚ)/30), ((1 : ℚ)/10), ((1 : ℚ)/10), ((3 : ℚ)/10), ((1 : ℚ)/10), ((1 : ℚ)/10), ((3 : ℚ)/10), ((1 : ℚ)/10)], current_symbol := ['-', '-'], decoded_text := "OO", adaptive_threshold := true }
/-- frames 110..120 -/
def oooC12 : List ℚ := [(1 : ℚ), (1 : ℚ), (1 : ℚ), (1 : ℚ), (1 : ℚ), (1 : ℚ), (1 : ℚ), (0 : ℚ), (0 : ℚ), (0 : ℚ)]
/-- state after frame 120 -/
def oooD12 : Decoder := { threshold_high := ((2 : ℚ)/5), threshold_low := ((1 : ℚ)/10), max_intensity := (1 : ℚ), unit_duration := ((171851189530727 : ℚ)/1000000000000000), baseline := some ((827269706064171159838078900184013751038269841857389464208009274449 : ℚ)/1818989403545856475830078125000000000000000000000000000000000000000), intensity_buffer := [(1 : ℚ), (1 : ℚ), (0 : ℚ), (0 : ℚ), (0 : ℚ)], current_state := false, state_start_time := ((119 : ℚ)/30), durations_on := [((1 : ℚ)/3), ((3 : ℚ)/10), ((3 : ℚ)/10), ((3 : ℚ)/10), ((3 : ℚ)/10), ((3 : ℚ)/10), ((3 : ℚ)/10), ((3 : ℚ)/10), ((3 : ℚ)/10)], durations_off := [((1 : ℚ)/30), ((1 : ℚ)/10), ((1 : ℚ)/10), ((3 : ℚ)/10), ((1 : ℚ)/10), ((1 : ℚ)/10), ((3 : ℚ)/10), ((1 : ℚ)/10), ((1 : ℚ)/10)], current_symbol := ['-', '-', '.'], decoded_text := "OO", adaptive_threshold := true }
/-- frames 120..126 -/
def oooC13 : List ℚ := [(0 : ℚ), (0 : ℚ), (0 : ℚ), (0 : ℚ), (0 : ℚ), (0 : ℚ)]
/-- state after frame 126 -/
def oooD13 : Decoder := { threshold_high := ((2 : ℚ)/5), threshold_low := ((1 : ℚ)/10), max_intensity := (1 : ℚ), unit_duration := ((171851189530727 : ℚ)/1000000000000000), baseline := some ((11450477594321044359340126713545146077054004823284978858214566372120240027249 : ℚ)/28421709430404007434844970703125000000000000000000000000000000000000000000000), intensity_buffer := [(0 : ℚ), (0 : ℚ), (0 : ℚ), (0 : ℚ), (0 : ℚ)], current_state := false, state_start_time := ((119 : ℚ)/30), durations_on := [((1 : ℚ)/3), ((3 : ℚ)/10), ((3 : ℚ)/10), ((3 : ℚ)/10), ((3 : ℚ)/10), ((3 : ℚ)/10), ((3 : ℚ)/10), ((3 : ℚ)/10), ((3 : ℚ)/10)], durations_off := [((1 : ℚ)/30), ((1 : ℚ)/10), ((1 : ℚ)/10), ((3 : ℚ)/10), ((1 : ℚ)/10), ((1 : ℚ)/10), ((3 : ℚ)/10), ((1 : ℚ)/10), ((1 : ℚ)/10)], current_symbol := ['-', '-', '.'], decoded_text := "OO", adaptive_threshold := true }
/-- frames 0..10 -/
def sosC1 : List ℚ := [(1 : ℚ), (1 : ℚ), (1 : ℚ), (0 : ℚ), (0 : ℚ), (0 : ℚ), (1 : ℚ), (1 : ℚ), (1 : ℚ), (0 : ℚ)]
/-- state after frame 10 -/
def sosD1 : Decoder := { threshold_high := ((2 : ℚ)/5), threshold_low := ((1 : ℚ)/10), max_intensity := (1 : ℚ), unit_duration := ((1 : ℚ)/10), baseline := some ((5764801 : ℚ)/6250000), intensity_buffer := [(0 : ℚ), (1 : ℚ), (1 : ℚ), (1 : ℚ), (0 : ℚ)], current_state := true, state_start_time := ((4 : ℚ)/15), durations_on := [((2 : ℚ)/15)], durations_off := [((1 : ℚ)/30), ((1 : ℚ)/10)], current_symbol := ['.'], decoded_text := "", adaptive_threshold := true }
/-- frames 10..20 -/
def sosC2 : List ℚ := [(0 : ℚ), (0 : ℚ), (1 : ℚ), (1 : ℚ), (1 : ℚ), (0 : ℚ), (0 : ℚ), (0 : ℚ), (0 : ℚ), (0 : ℚ)]
/-- state after frame 20 -/
def sosD2 : Decoder := { threshold_high := ((2 : ℚ)/5), threshold_low := ((1 : ℚ)/10), max_intensity := (1 : ℚ), unit_duration := ((281 : ℚ)/3000), baseline := some ((3909821048582988049 : ℚ)/4882812500000000000), intensity_buffer := [(0 : ℚ), (0 : ℚ), (0 : ℚ), (0 : ℚ), (0 : ℚ)], current_state := false, state_start_time := ((17 : ℚ)/30), durations_on := [((2 : ℚ)/15), ((1 : ℚ)/10), ((1 : ℚ)/10)], durations_off := [((1 : ℚ)/30), ((1 : ℚ)/10), ((1 : ℚ)/10)], current_symbol := ['.', '.', '.'], decoded_text := "", adaptive_threshold := true }
/-- frames 20..30 -/
def sosC3 : List ℚ := [(0 : ℚ), (0 : ℚ), (0 : ℚ), (0 : ℚ), (1 : ℚ), (1 : ℚ), (1 : ℚ), (1 : ℚ), (1 : ℚ), (1 : ℚ)]
/-- state after frame 30 -/
def sosD3 : Decoder := { threshold_high := ((2 : ℚ)/5), threshold_low := ((1 : ℚ)/10), max_intensity := (1 : ℚ), unit_duration := ((2729 : ℚ)/30000), baseline := some ((22539340290692258087863249 : ℚ)/30517578125000000000000000), intensity_buffer := [(1 : ℚ), (1 : ℚ), (1 : ℚ), (1 : ℚ), (1 : ℚ)], current_state := true, state_start_time := ((13 : ℚ)/15), durations_on := [((2 : ℚ)/15), ((1 : ℚ)/10), ((1 : ℚ)/10)], durations_off := [((1 : ℚ)/30), ((1 : ℚ)/10), ((1 : ℚ)/10), ((3 : ℚ)/10)], current_symbol := [], decoded_text := "S", adaptive_threshold := true }
/-- frames 30..40 -/
def sosC4 : List ℚ := [(1 : ℚ), (1 : ℚ), (1 : ℚ), (0 : ℚ), (0 : ℚ), (0 : ℚ), (1 : ℚ), (1 : ℚ), (1 : ℚ), (1 : ℚ)]
/-- state after frame 40 -/
def sosD4 : Decoder := { threshold_high := ((2 : ℚ)/5), threshold_low := ((1 : ℚ)/10), max_intensity := (1 : ℚ), unit_duration := ((259049 : ℚ)/3000000), baseline := some ((2651730845859653471779023381601 : ℚ)/3814697265625000000000000000000), intensity_buffer := [(0 : ℚ), (1 : ℚ), (1 : ℚ), (1 : ℚ), (1 : ℚ)], current_state := true, state_start_time := ((19 : ℚ)/15), durations_on := [((2 : ℚ)/15), ((1 : ℚ)/10), ((1 : ℚ)/10), ((3 : ℚ)/10)], durations_off := [((1 : ℚ)/30), ((1 : ℚ)/10), ((1 : ℚ)/10), ((3 : ℚ)/10), ((1 : ℚ)/10)], current_symbol := ['-'], decoded_text := "S", adaptive_threshold := true }
/-- frames 40..50 -/
def sosC5 : List ℚ := [(1 : ℚ), (1 : ℚ), (1 : ℚ), (1 : ℚ), (1 : ℚ), (0 : ℚ), (0 : ℚ), (0 : ℚ), (1 : ℚ), (1 : ℚ)]
/-- state after frame 50 -/
def sosD5 : Decoder := { threshold_high := ((2 : ℚ)/5), threshold_low := ((1 : ℚ)/10), max_intensity := (1 : ℚ), unit_duration := ((2531441 : ℚ)/30000000), baseline := some ((311973482284542371301330321821976049 : ℚ)/476837158203125000000000000000000000), intensity_buffer := [(0 : ℚ), (0 : ℚ), (0 : ℚ), (1 : ℚ), (1 : ℚ)], current_state := false, state_start_time := ((47 : ℚ)/30), durations_on := [((2 : ℚ)/15), ((1 : ℚ)/10), ((1 : ℚ)/10), ((3 : ℚ)/10), ((3 : ℚ)/10)], durations_off := [((1 : ℚ)/30), ((1 : ℚ)/10), ((1 : ℚ)/10), ((3 : ℚ)/10), ((1 : ℚ)/10)], current_symbol := ['-', '-'], decoded_text := "S", adaptive_threshold := true }
/-- frames 50..60 -/
def sosC6 : List ℚ := [(1 : ℚ), (1 : ℚ), (1 : ℚ), (1 : ℚ), (1 : ℚ), (1 : ℚ), (1 : ℚ), (0 : ℚ), (0 : ℚ), (0 : ℚ)]
/-- state after frame 60 -/
def sosD6 : Decoder := { threshold_high := ((2 : ℚ)/5), threshold_low := ((1 : ℚ)/10), max_intensity := (1 : ℚ), unit_duration := ((243046721 : ℚ)/3000000000), baseline := some ((36703368217294125441230211032033660188801 : ℚ)/59604644775390625000000000000000000000000), intensity_buffer := [(1 : ℚ), (1 : ℚ), (0 : ℚ), (0 : ℚ), (0 : ℚ)], current_state := false, state_start_time := ((59 : ℚ)/30), durations_on := [((2 : ℚ)/15), ((1 : ℚ)/10), ((1 : ℚ)/10), ((3 : ℚ)/10), ((3 : ℚ)/10), ((3 : ℚ)/10)], durations_off := [((1 : ℚ)/30), ((1 : ℚ)/10), ((1 : ℚ)/10), ((3 : ℚ)/10), ((1 : ℚ)/10), ((1 : ℚ)/10)], current_symbol := ['-', '-', '-'], decoded_text := "S", adaptive_threshold := true }
/-- frames 60..70 -/
def sosC7 : List ℚ := [(0 : ℚ), (0 : ℚ), (0 : ℚ), (0 : ℚ), (0 : ℚ), (0 : ℚ), (1 : ℚ), (1 : ℚ), (1 : ℚ), (0 : ℚ)]
/-- state after frame 70 -/
def sosD7 : Decoder := { threshold_high := ((2 : ℚ)/5), threshold_low := ((1 : ℚ)/10), max_intensity := (1 : ℚ), unit_duration := ((2387420489 : ℚ)/30000000000), baseline := some ((24893071176241544900787221684958608586849291716964049 : ℚ)/46566128730773925781250000000000000000000000000000000), intensity_buffer := [(0 : ℚ), (1 : ℚ), (1 : ℚ), (1 : ℚ), (0 : ℚ)], current_state := true, state_start_time := ((34 : ℚ)/15), durations_on := [((2 : ℚ)/15), ((1 : ℚ)/10), ((1 : ℚ)/10), ((3 : ℚ)/10), ((3 : ℚ)/10), ((3 : ℚ)/10)], durations_off := [((1 : ℚ)/30), ((1 : ℚ)/10), ((1 : ℚ)/10), ((3 : ℚ)/10), ((1 : ℚ)/10), ((1 : ℚ)/10), ((3 : ℚ)/10)], current_symbol := [], decoded_text := "SO", adaptive_threshold := true }
/-- frames 70..80 -/
def sosC8 : List ℚ := [(0 : ℚ), (0 : ℚ), (1 : ℚ), (1 : ℚ), (1 : ℚ), (0 : ℚ), (0 : ℚ), (0 : ℚ), (1 : ℚ), (1 : ℚ)]
/-- state after frame 80 -/
def sosD8 : Decoder := { threshold_high := ((2 : ℚ)/5), threshold_low := ((1 : ℚ)/10), max_intensity := (1 : ℚ), unit_duration := ((2282429536481 : ℚ)/30000000000000), baseline := some ((7031676478883553279994550741476882515263791803223057265323201 : ℚ)/14551915228366851806640625000000000000000000000000000000000000), intensity_buffer := [(0 : ℚ), (0 : ℚ), (0 : ℚ), (1 : ℚ), (1 : ℚ)], current_state := false, state_start_time := ((77 : ℚ)/30), durations_on := [((2 : ℚ)/15), ((1 : ℚ)/10), ((1 : ℚ)/10), ((3 : ℚ)/10), ((3 : ℚ)/10), ((3 : ℚ)/10), ((1 : ℚ)/10), ((1 : ℚ)/10)], durations_off := [((1 : ℚ)/30), ((1 : ℚ)/10), ((1 : ℚ)/10), ((3 : ℚ)/10), ((1 : ℚ)/10), ((1 : ℚ)/10), ((3 : ℚ)/10), ((1 : ℚ)/10)], current_symbol := ['.', '.'], decoded_text := "SO", adaptive_threshold := true }
/-- frames 80..90 -/
def sosC9 : List ℚ := [(1 : ℚ), (0 : ℚ), (0 : ℚ), (0 : ℚ), (0 : ℚ), (0 : ℚ), (0 : ℚ), (0 : ℚ), (0 : ℚ), (0 : ℚ)]
/-- state after frame 90 -/
def sosD9 : Decoder := { threshold_high := ((2 : ℚ)/5), threshold_low := ((1 : ℚ)/10), max_intensity := (1 : ℚ), unit_duration := ((222876792454961 : ℚ)/3000000000000000), baseline := some ((11450477594321044359340126713545146077054004823284978858214566372120240027249 : ℚ)/28421709430404007434844970703125000000000000000000000000000000000000000000000), intensity_buffer := [(0 : ℚ), (0 : ℚ), (0 : ℚ), (0 : ℚ), (0 : ℚ)], current_state := false, state_start_time := ((83 : ℚ)/30), durations_on := [((2 : ℚ)/15), ((1 : ℚ)/10), ((1 : ℚ)/10), ((3 : ℚ)/10), ((3 : ℚ)/10), ((3 : ℚ)/10), ((1 : ℚ)/10), ((1 : ℚ)/10), ((1 : ℚ)/10)], durations_off := [((1 : ℚ)/30), ((1 : ℚ)/10), ((1 : ℚ)/10), ((3 : ℚ)/10), ((1 : ℚ)/10), ((1 : ℚ)/10), ((3 : ℚ)/10), ((1 : ℚ)/10), ((1 : ℚ)/10)], current_symbol := ['.', '.', '.'], decoded_text := "SO", adaptive_threshold := true }

set_option maxRecDepth 40000
set_option maxHeartbeats 2000000

/-- Running the frame loop over an appended list runs it over the two parts in
sequence, with the frame index advanced by the length of the first part. -/
theorem runFrames_append (fps : ℚ) (l1 : List ℚ) : ∀ (d : Decoder) (k : Nat) (l2 : List ℚ),
    runFrames fps d k (l1 ++ l2) = runFrames fps (runFrames fps d k l1) (k + l1.length) l2 := by
  induction l1 with
  | nil =>
      intro d k l2
      rw [List.nil_append]
      rfl
  | cons x xs ih =>
      intro d k l2
      rw [List.cons_append]
      have h2 : runFrames fps d k (x :: (xs ++ l2)) = runFrames fps (stepFrame fps d k x) (k + 1) (xs ++ l2) := rfl
      have h3 : runFrames fps d k (x :: xs) = runFrames fps (stepFrame fps d k x) (k + 1) xs := rfl
      rw [h2, ih, h3]
      have h : k + 1 + xs.length = k + (x :: xs).length := by
        rw [List.length_cons]
        omega
      rw [h]

lemma oooS1 (rest : List ℚ) : runFrames 30 ({} : Decoder) 0 (oooC1 ++ rest) = runFrames 30 oooD1 10 rest := by
  rw [runFrames_append, show runFrames 30 ({} : Decoder) 0 oooC1 = oooD1 from by with_unfolding_all rfl, show 0 + oooC1.length = 10 from by rfl]

lemma oooS2 (rest : List ℚ) : runFrames 30 oooD1 10 (oooC2 ++ rest) = runFrames 30 oooD2 20 rest := by
  rw [runFrames_append, show runFrames 30 oooD1 10 oooC2 = oooD2 from by with_unfolding_all rfl, show 10 + oooC2.length = 20 from by rfl]

lemma oooS3 (rest : List ℚ) : runFrames 30 oooD2 20 (oooC3 ++ rest) = runFrames 30 oooD3 30 rest := by
  rw [runFrames_append, show runFrames 30 oooD2 20 oooC3 = oooD3 from by with_unfolding_all rfl, show 20 + oooC3.length = 30 from by rfl]

lemma oooS4 (rest : List ℚ) : runFrames 30 oooD3 30 (oooC4 ++ rest) = runFrames 30 oooD4 40 rest := by
  rw [runFrames_append, show runFrames 30 oooD3 30 oooC4 = oooD4 from by with_unfolding_all rfl, show 30 + oooC4.length = 40 from by rfl]

lemma oooS5 (rest : List ℚ) : runFrames 30 oooD4 40 (oooC5 ++ rest) = runFrames 30 oooD5 50 rest := by
  rw [runFrames_append, show runFrames 30 oooD4 40 oooC5 = oooD5 from by with_unfolding_all rfl, show 40 + oooC5.length = 50 from by rfl]

lemma oooS6 (rest : List ℚ) : runFrames 30 oooD5 50 (oooC6 ++ rest) = runFrames 30 oooD6 60 rest := by
  rw [runFrames_append, show runFrames 30 oooD5 50 oooC6 = oooD6 from by with_unfolding_all rfl, show 50 + oooC6.length = 60 from by rfl]

lemma oooS7 (rest : List ℚ) : runFrames 30 oooD6 60 (oooC7 ++ rest) = runFrames 30 oooD7 70 rest := by
  rw [runFrames_append, show runFrames 30 oooD6 60 oooC7 = oooD7 from by with_unfolding_all rfl, show 60 + oooC7.length = 70 from by rfl]

lemma oooS8 (rest : List ℚ) : runFrames 30 oooD7 70 (oooC8 ++ rest) = runFrames 30 oooD8 80 rest := by
  rw [runFrames_append, show runFrames 30 oooD7 70 oooC8 = oooD8 from by with_unfolding_all rfl, show 70 + oooC8.length = 80 from by rfl]

lemma oooS9 (rest : List ℚ) : runFrames 30 oooD8 80 (oooC9 ++ rest) = runFrames 30 oooD9 90 rest := by
  rw [runFrames_append, show runFrames 30 oooD8 80 oooC9 = oooD9 from by with_unfolding_all rfl, show 80 + oooC9.length = 90 from by rfl]

lemma oooS10 (rest : List ℚ) : runFrames 30 oooD9 90 (oooC10 ++ rest) = runFrames 30 oooD10 100 rest := by
  rw [runFrames_append, show runFrames 30 oooD9 90 oooC10 = oooD10 from by with_unfolding_all rfl, show 90 + oooC10.length = 100 from by rfl]

lemma oooS11 (rest : List ℚ) : runFrames 30 oooD10 100 (oooC11 ++ rest) = runFrames 30 oooD11 110 rest := by
  rw [runFrames_append, show runFrames 30 oooD10 100 oooC11 = oooD11 from by with_unfolding_all rfl, show 100 + oooC11.length = 110 from by rfl]

lemma oooS12 (rest : List ℚ) : runFrames 30 oooD11 110 (oooC12 ++ rest) = runFrames 30 oooD12 120 rest := by
  rw [runFrames_append, show runFrames 30 oooD11 110 oooC12 = oooD12 from by with_unfolding_all rfl, show 110 + oooC12.length = 120 from by rfl]

lemma oooS13 : runFrames 30 oooD12 120 oooC13 = oooD13 := by with_unfolding_all rfl

lemma sosS1 (rest : List ℚ) : runFrames 30 ({} : Decoder) 0 (sosC1 ++ rest) = runFrames 30 sosD1 10 rest := by
  rw [runFrames_append, show runFrames 30 ({} : Decoder) 0 sosC1 = sosD1 from by with_unfolding_all rfl, show 0 + sosC1.length = 10 from by rfl]

lemma sosS2 (rest : List ℚ) : runFrames 30 sosD1 10 (sosC2 ++ rest) = runFrames 30 sosD2 20 rest := by
  rw [runFrames_append, show runFrames 30 sosD1 10 sosC2 = sosD2 from by with_unfolding_all rfl, show 10 + sosC2.length = 20 from by rfl]

lemma sosS3 (rest : List ℚ) : runFrames 30 sosD2 20 (sosC3 ++ rest) = runFrames 30 sosD3 30 rest := by
  rw [runFrames_append, show runFrames 30 sosD2 20 sosC3 = sosD3 from by with_unfolding_all rfl, show 20 + sosC3.length = 30 from by rfl]

lemma sosS4 (rest : List ℚ) : runFrames 30 sosD3 30 (sosC4 ++ rest) = runFrames 30 sosD4 40 rest := by
  rw [runFrames_append, show runFrames 30 sosD3 30 sosC4 = sosD4 from by with_unfolding_all rfl, show 30 + sosC4.length = 40 from by rfl]

lemma sosS5 (rest : List ℚ) : runFrames 30 sosD4 40 (sosC5 ++ rest) = runFrames 30 sosD5 50 rest := by
  rw [runFrames_append, show runFrames 30 sosD4 40 sosC5 = sosD5 from by with_unfolding_all rfl, show 40 + sosC5.length = 50 from by rfl]

lemma sosS6 (rest : List ℚ) : runFrames 30 sosD5 50 (sosC6 ++ rest) = runFrames 30 sosD6 60 rest := by
  rw [runFrames_append, show runFrames 30 sosD5 50 sosC6 = sosD6 from by with_unfolding_all rfl, show 50 + sosC6.length = 60 from by rfl]

lemma sosS7 (rest : List ℚ) : runFrames 30 sosD6 60 (sosC7 ++ rest) = runFrames 30 sosD7 70 rest := by
  rw [runFrames_append, show runFrames 30 sosD6 60 sosC7 = sosD7 from by with_unfolding_all rfl, show 60 + sosC7.length = 70 from by rfl]

lemma sosS8 (rest : List ℚ) : runFrames 30 sosD7 70 (sosC8 ++ rest) = runFrames 30 sosD8 80 rest := by
  rw [runFrames_append, show runFrames 30 sosD7 70 sosC8 = sosD8 from by with_unfolding_all rfl, show 70 + sosC8.length = 80 from by rfl]

lemma sosS9 : runFrames 30 sosD8 80 sosC9 = sosD9 := by with_unfolding_all rfl



/-- C1 (counterexample): the round-trip property fails as stated.  For the
supported text OOO at wpm 12 and fps 30 (ideal frames, default thresholds, ROI
covering the light), `process_video` returns "OOG", not "OOO": the decoder's
self-calibrating unit estimate drifts upward on the dash-heavy input until the
third letter's final 3-unit dash falls below the 1.8-unit dot/dash boundary. -/
theorem C1_roundtrip_counterexample :
    process_video (create_morse_frames ("OOO") 12 30) 30 = "OOG" ∧
    ("OOG" : String) ≠ "OOO" := by
  constructor
  · have hf : create_morse_frames ("OOO") 12 30 =
        oooC1 ++ (oooC2 ++ (oooC3 ++ (oooC4 ++ (oooC5 ++ (oooC6 ++ (oooC7 ++ (oooC8 ++
          (oooC9 ++ (oooC10 ++ (oooC11 ++ (oooC12 ++ oooC13))))))))))) := by
      with_unfolding_all rfl
    have hunf : process_video (create_morse_frames ("OOO") 12 30) 30 =
        (finalize_video (runFrames 30 ({} : Decoder) 0 (create_morse_frames ("OOO") 12 30))
          ((((create_morse_frames ("OOO") 12 30).length : ℚ) - 1) / 30)).decoded_text := rfl
    rw [hunf, hf, oooS1, oooS2, oooS3, oooS4, oooS5, oooS6, oooS7, oooS8, oooS9, oooS10,
        oooS11, oooS12, oooS13]
    with_unfolding_all rfl
  · decide

/-- C1 (amended): the generator encodes the claimed timing law — dot = 1 unit
ON, dash = 3 units ON, intra-symbol gap = 1 unit OFF, inter-letter gap = 3
units OFF, inter-word gap = 7 units OFF, with unit = 1.2/wpm seconds — and the
round-trip does hold for the spec's concrete example SOS at wpm 12, fps 30
(but not for every supported text, see the counterexample). -/
theorem C1_roundtrip_amended :
    (∀ u : ℚ, generate_timing_pattern (text_to_morse ("SOS")) u =
      [(true, u), (false, u), (true, u), (false, u), (true, u), (false, 3 * u),
       (true, 3 * u), (false, u), (true, 3 * u), (false, u), (true, 3 * u), (false, 3 * u),
       (true, u), (false, u), (true, u), (false, u), (true, u)]) ∧
    (∀ u : ℚ, generate_timing_pattern (text_to_morse ("E E")) u =
      [(true, u), (false, 7 * u), (true, u)]) ∧
    process_video (create_morse_frames ("SOS") 12 30) 30 = "SOS" := by
  refine ⟨fun u => by with_unfolding_all rfl, fun u => by with_unfolding_all rfl, ?_⟩
  have hf : create_morse_frames ("SOS") 12 30 =
      sosC1 ++ (sosC2 ++ (sosC3 ++ (sosC4 ++ (sosC5 ++ (sosC6 ++ (sosC7 ++ (sosC8 ++ sosC9))))))) := by
    with_unfolding_all rfl
  have hunf : process_video (create_morse_frames ("SOS") 12 30) 30 =
      (finalize_video (runFrames 30 ({} : Decoder) 0 (create_morse_frames ("SOS") 12 30))
        ((((create_morse_frames ("SOS") 12 30).length : ℚ) - 1) / 30)).decoded_text := rfl
  rw [hunf, hf, sosS1, sosS2, sosS3, sosS4, sosS5, sosS6, sosS7, sosS8, sosS9]
  with_unfolding_all rfl


/-- C2 (counterexample): the acceptance interval is open, not closed.  With
dot samples [0.1, 0.1, 0.1] and gap samples [0.15, 0.15] the ratio
medianGap/medianDot is exactly 1.5, which the claim says is accepted; the code
rejects it and falls back to the 0.3 s default. -/
theorem C2_calibration_counterexample :
    npMedian [(3 : ℚ)/20, 3/20] / npMedian [(1 : ℚ)/10, 1/10, 1/10] = 3/2 ∧
    calibrate_with_pattern [(1 : ℚ)/10, 1/10, 1/10] [(3 : ℚ)/20, 3/20] = (false, 3/10) := by
  constructor
  · with_unfolding_all rfl
  · with_unfolding_all rfl

/-- C2 (amended): with at least 3 dot samples and at least 2 gap samples,
pattern calibration accepts and sets the unit to the median dot iff the ratio
medianGap/medianDot lies in the OPEN interval (1.5, 6.0); otherwise it rejects
with fallback to the 0.3 s default.  In particular 1.4, 1.5, 6.0 and 6.1 are
rejected and 3.0 is accepted. -/
theorem C2_calibration_boundary (ons offs : List ℚ)
    (h3 : 3 ≤ ons.length) (h2 : 2 ≤ offs.length) :
    calibrate_with_pattern ons offs =
      (if 3/2 < npMedian offs / npMedian ons ∧ npMedian offs / npMedian ons < 6
       then (true, npMedian ons) else (false, 3/10)) := by
  unfold calibrate_with_pattern
  rw [if_pos h3, if_pos h2]

/-- C2 (witness): the amended boundary theorem applied to concrete sample
lists with ratio 3 (accepted, unit set to the 0.1 median dot). -/
theorem C2_calibration_boundary_witness :
    calibrate_with_pattern [(1 : ℚ)/10, 1/10, 1/10] [(3 : ℚ)/10, 3/10] =
      (if 3/2 < npMedian [(3 : ℚ)/10, 3/10] / npMedian [(1 : ℚ)/10, 1/10, 1/10] ∧
          npMedian [(3 : ℚ)/10, 3/10] / npMedian [(1 : ℚ)/10, 1/10, 1/10] < 6
       then (true, npMedian [(1 : ℚ)/10, 1/10, 1/10]) else (false, 3/10)) :=
  C2_calibration_boundary [(1 : ℚ)/10, 1/10, 1/10] [(3 : ℚ)/10, 3/10]
    (by decide) (by decide)


/-- Projection fact: decoding the symbol buffer never changes the unit estimate. -/
lemma decode_symbol_fst_unit (d : Decoder) : (decode_symbol d).1.unit_duration = d.unit_duration := by
  simp only [decode_symbol]
  split
  · rfl
  · rfl

/-- Preservation of the unit bounds by one unit re-estimation step. -/
lemma update_unit_estimate_bounds (d : Decoder)
    (h1 : unit_min ≤ d.unit_duration) (h2 : d.unit_duration ≤ unit_max) :
    unit_min ≤ (update_unit_estimate d).unit_duration ∧
    (update_unit_estimate d).unit_duration ≤ unit_max := by
  simp only [update_unit_estimate]
  split
  · exact ⟨h1, h2⟩
  · dsimp only
    set v := (npMedian (d.durations_on ++ d.durations_off) / (3/2) ⊔ unit_min) ⊓ unit_max with hv
    have hlohi : unit_min ≤ unit_max := by norm_num [unit_min, unit_max]
    have hv1 : unit_min ≤ v := le_min (le_max_right _ _) hlohi
    have hv2 : v ≤ unit_max := min_le_right _ _
    have e1 : unit_min = (1 : ℚ)/50 := rfl
    have e2 : unit_max = (1 : ℚ)/4 := rfl
    have e3 : unit_alpha = (1 : ℚ)/10 := rfl
    simp only [e1, e2, e3] at h1 h2 hv1 hv2 ⊢
    constructor
    · linarith
    · linarith

/-- C3 (counterexample): the claim includes calibration outcomes, but the
N-blink calibration fallback (fewer than 3 blinks detected) sets the unit
duration to 0.3 s, which exceeds unitMax = 0.25 s. -/
theorem C3_unit_bounds_counterexample :
    (calibrate_timing []).2 = 3/10 ∧ ¬ ((calibrate_timing []).2 ≤ unit_max) := by
  constructor
  · with_unfolding_all rfl
  · with_unfolding_all decide

/-- C3 (amended): the unit estimate never escapes [unitMin, unitMax] =
[0.02, 0.25] under duration observations — both a bare unit re-estimation and a
full state-change step preserve the bounds (the initial 0.1 is inside) — but
calibration outcomes are not so bounded: the fallback sets 0.3 > 0.25. -/
theorem C3_unit_bounds (d : Decoder) (ns : Bool) (t : ℚ)
    (h1 : unit_min ≤ d.unit_duration) (h2 : d.unit_duration ≤ unit_max) :
    (unit_min ≤ (update_unit_estimate d).unit_duration ∧
      (update_unit_estimate d).unit_duration ≤ unit_max) ∧
    (unit_min ≤ (process_state_change d ns t).unit_duration ∧
      (process_state_change d ns t).unit_duration ≤ unit_max) := by
  refine ⟨update_unit_estimate_bounds d h1 h2, ?_⟩
  simp only [process_state_change]
  split
  · exact ⟨h1, h2⟩
  · dsimp only
    split
    all_goals try split
    all_goals try split
    all_goals try split
    all_goals refine update_unit_estimate_bounds _ ?_ ?_ <;>
      (try simp only [decode_symbol_fst_unit]) <;>
      first
        | exact h1
        | exact h2

/-- C3 (witness): the amended bounds theorem applied to the freshly constructed
decoder (unit 0.1) with a state change at time 1. -/
theorem C3_unit_bounds_witness :
    (unit_min ≤ (update_unit_estimate ({} : Decoder)).unit_duration ∧
      (update_unit_estimate ({} : Decoder)).unit_duration ≤ unit_max) ∧
    (unit_min ≤ (process_state_change ({} : Decoder) true 1).unit_duration ∧
      (process_state_change ({} : Decoder) true 1).unit_duration ≤ unit_max) :=
  C3_unit_bounds {} true 1 (by with_unfolding_all decide) (by with_unfolding_all decide)


/-- One intensity-extraction step preserves strictness of the threshold pair. -/
lemma extract_intensity_thresholds (d : Decoder) (i : ℚ)
    (h : d.threshold_low < d.threshold_high) :
    (extract_intensity d i).1.threshold_low < (extract_intensity d i).1.threshold_high := by
  simp only [extract_intensity]
  cases hb : d.baseline with
  | none =>
      simp only [hb]
      try dsimp only
      split
      all_goals try split
      all_goals try split
      all_goals try dsimp only
      all_goals first
        | exact h
        | linarith
  | some b =>
      simp only [hb]
      by_cases hlt : i < 1/2
      · rw [if_pos hlt]
        try dsimp only
        split
        all_goals try split
        all_goals try split
        all_goals try dsimp only
        all_goals first
          | exact h
          | linarith
      · rw [if_neg hlt]
        simp only [hb]
        try dsimp only
        split
        all_goals try split
        all_goals try split
        all_goals try dsimp only
        all_goals first
          | exact h
          | linarith

/-- C5: for every starting state whose threshold pair is strict and every
sequence of raw intensity samples, the thresholds remain strict after the whole
sequence is processed (every adaptive update uses the 0.2/0.6 split of a range
exceeding 0.2); the defaults (0.1, 0.4) of a fresh decoder are strict. -/
theorem C5_threshold_invariant (d : Decoder) (is : List ℚ)
    (h : d.threshold_low < d.threshold_high) :
    ((foldExtract d is).threshold_low < (foldExtract d is).threshold_high) ∧
    ({} : Decoder).threshold_low < ({} : Decoder).threshold_high := by
  refine ⟨?_, by with_unfolding_all decide⟩
  induction is generalizing d with
  | nil => exact h
  | cons x xs ih => exact ih (extract_intensity d x).1 (extract_intensity_thresholds d x h)

/-- C5 (witness): the threshold invariant applied to a fresh decoder fed the
samples 0.5 and 1. -/
theorem C5_threshold_invariant_witness :
    ((foldExtract {} [(1 : ℚ)/2, 1]).threshold_low <
      (foldExtract {} [(1 : ℚ)/2, 1]).threshold_high) ∧
    ({} : Decoder).threshold_low < ({} : Decoder).threshold_high :=
  C5_threshold_invariant {} [(1 : ℚ)/2, 1] (by with_unfolding_all decide)

/-- C6: the hysteresis rule of detect_state (ON above the high threshold, OFF
below the low threshold, previous state in between), and its consequence: an
intensity sequence lying strictly inside the dead band never changes the
detected state. -/
theorem C6_hysteresis (d : Decoder) (i : ℚ) (is : List ℚ)
    (hband : ∀ j ∈ is, d.threshold_low < j ∧ j < d.threshold_high) :
    (detect_state d i =
      (if i > d.threshold_high then true
       else if i < d.threshold_low then false else d.current_state)) ∧
    is.foldl (fun s j => detect_state { d with current_state := s } j) d.current_state
      = d.current_state := by
  refine ⟨rfl, ?_⟩
  suffices hgen : ∀ (l : List ℚ) (s : Bool), (∀ j ∈ l, d.threshold_low < j ∧ j < d.threshold_high) →
      l.foldl (fun s j => detect_state { d with current_state := s } j) s = s by
    exact hgen is d.current_state hband
  intro l
  induction l with
  | nil => intro s _; rfl
  | cons x xs ih =>
      intro s hb
      have hx := hb x (by simp)
      have hd : detect_state { d with current_state := s } x = s := by
        simp only [detect_state]
        rw [if_neg (not_lt.mpr hx.2.le), if_neg (not_lt.mpr hx.1.le)]
      rw [List.foldl_cons, hd]
      exact ih s (fun j hj => hb j (by simp [hj]))

/-- C6 (witness): the hysteresis rule and no-chatter applied to a fresh decoder
(band (0.1, 0.4)), probe intensity 0.5 and in-band samples 0.25 and 0.2. -/
theorem C6_hysteresis_witness :
    (detect_state ({} : Decoder) (1/2) =
      (if (1 : ℚ)/2 > ({} : Decoder).threshold_high then true
       else if (1 : ℚ)/2 < ({} : Decoder).threshold_low then false
       else ({} : Decoder).current_state)) ∧
    ([(1 : ℚ)/4, 1/5].foldl
      (fun s j => detect_state { ({} : Decoder) with current_state := s } j)
      ({} : Decoder).current_state = ({} : Decoder).current_state) :=
  C6_hysteresis {} (1/2) [(1 : ℚ)/4, 1/5] (by with_unfolding_all decide)

/-- C7: a state change whose elapsed interval is shorter than 20 ms is dropped
entirely — the decoder state (decoded text, symbol buffer, histories, unit
estimate, current state and state time origin) is returned unchanged. -/
theorem C7_debounce (d : Decoder) (ns : Bool) (t : ℚ)
    (h : t - d.state_start_time < 1/50) :
    process_state_change d ns t = d := by
  simp only [process_state_change]
  rw [if_pos h]

/-- C7 (witness): the debounce theorem applied to a fresh decoder and a
transition 10 ms after the state time origin. -/
theorem C7_debounce_witness : process_state_change {} true (1/100) = {} :=
  C7_debounce {} true (1/100) (by with_unfolding_all decide)

/-- C8 (counterexample): the very first processed frame sets the baseline to
that frame's raw intensity unconditionally: a first frame of raw intensity
0.9 ≥ 0.5 changes the baseline (from unset to 0.9) even though the claim says
frames of intensity at least 0.5 leave it unchanged. -/
theorem C8_baseline_counterexample :
    ((1 : ℚ)/2 ≤ 9/10) ∧
    ({} : Decoder).baseline = none ∧
    (extract_intensity {} (9/10)).1.baseline = some (9/10) := by
  refine ⟨by with_unfolding_all decide, rfl, by with_unfolding_all rfl⟩

/-- C8 (amended): once the baseline is initialized, a frame updates it by EMA
with rate 0.02 exactly when its raw intensity is below 0.5, and leaves it
unchanged otherwise; the first processed frame initializes it unconditionally
to that frame's raw intensity. -/
theorem C8_baseline_guard (d : Decoder) (i b : ℚ) (hb : d.baseline = some b) :
    (extract_intensity d i).1.baseline =
      some (if i < 1/2 then (1 - baseline_alpha) * b + baseline_alpha * i else b) := by
  simp only [extract_intensity, hb]
  by_cases hlt : i < 1/2
  · rw [if_pos hlt, if_pos hlt]
    split
    all_goals try split
    all_goals try split
    all_goals try split
    all_goals try dsimp only
  · rw [if_neg hlt, if_neg hlt]
    split
    all_goals try split
    all_goals try split
    all_goals try split
    all_goals try dsimp only
    all_goals exact hb

/-- C8 (witness): the amended baseline guard applied to a decoder whose
baseline is 0.2, fed a frame of raw intensity 0.75 (≥ 0.5: unchanged). -/
theorem C8_baseline_guard_witness :
    (extract_intensity ({ baseline := some ((1 : ℚ)/5) } : Decoder) (3/4)).1.baseline =
      some (if (3 : ℚ)/4 < 1/2 then (1 - baseline_alpha) * ((1 : ℚ)/5) + baseline_alpha * ((3 : ℚ)/4)
            else (1 : ℚ)/5) :=
  C8_baseline_guard ({ baseline := some ((1 : ℚ)/5) } : Decoder) (3/4) ((1 : ℚ)/5) rfl


/-- Projection fact: unit re-estimation never changes the decoded text. -/
lemma update_unit_estimate_text (d : Decoder) :
    (update_unit_estimate d).decoded_text = d.decoded_text := by
  simp only [update_unit_estimate]
  split
  · rfl
  · rfl

/-- Projection fact: unit re-estimation never changes the symbol buffer. -/
lemma update_unit_estimate_symbol (d : Decoder) :
    (update_unit_estimate d).current_symbol = d.current_symbol := by
  simp only [update_unit_estimate]
  split
  · rfl
  · rfl

/-- C9: when an OFF interval (strictly longer than the 20 ms floor) measures at
least 4.5 units, processing the state change flushes the symbol buffer —
appending the decoded character when the buffer was non-empty — and then
appends a literal space even when the buffer was empty, so consecutive word
gaps each append a space. -/
theorem C9_word_gap_flush (d : Decoder) (ns : Bool) (t : ℚ)
    (hoff : d.current_state = false)
    (hdur : 1/50 < t - d.state_start_time)
    (hword : 9/2 ≤ (t - d.state_start_time) / d.unit_duration) :
    (process_state_change d ns t).decoded_text =
      (if d.current_symbol = [] then d.decoded_text
       else d.decoded_text.push (morseLookup (String.mk d.current_symbol))) ++ " " ∧
    (process_state_change d ns t).current_symbol = [] := by
  simp only [process_state_change]
  rw [if_neg (show ¬ (t - d.state_start_time < 1/50) from not_lt.mpr hdur.le)]
  try dsimp only
  simp only [update_unit_estimate_text, update_unit_estimate_symbol]
  rw [if_neg (show ¬ (d.current_state = true) by simp [hoff])]
  rw [if_pos hdur]
  have hcl : classify_duration
      { d with durations_off := dequePush 20 d.durations_off (t - d.state_start_time) }
      (t - d.state_start_time) false = DurClass.word := by
    simp only [classify_duration]
    try dsimp only
    rw [if_neg (by decide : ¬ (false = true)),
        if_neg (not_lt.mpr (le_trans (by norm_num) hword)), if_neg (not_lt.mpr hword)]
  rw [hcl]
  try dsimp only
  by_cases hsym : d.current_symbol = []
  · rw [if_pos hsym]
    simp only [decode_symbol]
    rw [if_pos hsym]
    try dsimp only
    exact ⟨rfl, hsym⟩
  · rw [if_neg hsym]
    simp only [decode_symbol]
    rw [if_neg hsym]
    try dsimp only
    exact ⟨rfl, rfl⟩

/-- C9 (witness): the word-gap flush applied to a decoder with an empty buffer
and text "E ", after a 0.5 s OFF interval (5 units ≥ 4.5): a second consecutive
space is appended. -/
theorem C9_word_gap_flush_witness :
    (process_state_change ({ decoded_text := "E " } : Decoder) true (1/2)).decoded_text =
      (if ({ decoded_text := "E " } : Decoder).current_symbol = []
       then ({ decoded_text := "E " } : Decoder).decoded_text
       else ({ decoded_text := "E " } : Decoder).decoded_text.push
         (morseLookup (String.mk ({ decoded_text := "E " } : Decoder).current_symbol))) ++ " " ∧
    (process_state_change ({ decoded_text := "E " } : Decoder) true (1/2)).current_symbol = [] :=
  C9_word_gap_flush ({ decoded_text := "E " } : Decoder) true (1/2) rfl
    (by with_unfolding_all decide) (by with_unfolding_all decide)

/-- Intensity samples not exceeding the running maximum leave the maximum and
both thresholds untouched. -/
lemma extract_intensity_le_max (d : Decoder) (i : ℚ) (hle : i ≤ d.max_intensity) :
    (extract_intensity d i).1.max_intensity = d.max_intensity ∧
    (extract_intensity d i).1.threshold_low = d.threshold_low ∧
    (extract_intensity d i).1.threshold_high = d.threshold_high := by
  simp only [extract_intensity]
  have hni : ¬ (i > d.max_intensity) := not_lt.mpr hle
  cases hb : d.baseline with
  | none =>
      simp only [hb]
      try dsimp only
      rw [if_neg hni]
      exact ⟨rfl, rfl, rfl⟩
  | some b =>
      simp only [hb]
      by_cases hlt : i < 1/2
      · rw [if_pos hlt]
        try dsimp only
        rw [if_neg hni]
        exact ⟨rfl, rfl, rfl⟩
      · rw [if_neg hlt]
        try dsimp only
        rw [if_neg hni]
        exact ⟨rfl, rfl, rfl⟩

/-- C10: the running maximum starts at 0.5 (not 0), so the adaptive threshold
update can fire only once a frame's raw intensity strictly exceeds 0.5; for
every sequence never exceeding 0.5 the thresholds stay at their defaults
(0.1, 0.4) and the maximum stays 0.5 for the whole session. -/
theorem C10_initial_max (is : List ℚ) (hle : ∀ j ∈ is, j ≤ 1/2) :
    ({} : Decoder).max_intensity = 1/2 ∧
    (foldExtract {} is).threshold_low = 1/10 ∧
    (foldExtract {} is).threshold_high = 2/5 ∧
    (foldExtract {} is).max_intensity = 1/2 := by
  refine ⟨rfl, ?_⟩
  suffices hgen : ∀ (l : List ℚ) (d : Decoder), d.max_intensity = 1/2 → (∀ j ∈ l, j ≤ 1/2) →
      (foldExtract d l).threshold_low = d.threshold_low ∧
      (foldExtract d l).threshold_high = d.threshold_high ∧
      (foldExtract d l).max_intensity = 1/2 by
    obtain ⟨a, b, c⟩ := hgen is {} rfl hle
    exact ⟨a.trans rfl, b.trans rfl, c⟩
  intro l
  induction l with
  | nil =>
      intro d h1 _
      exact ⟨rfl, rfl, h1⟩
  | cons x xs ih =>
      intro d h1 h2
      have hx : x ≤ d.max_intensity := by
        rw [h1]
        exact h2 x (by simp)
      obtain ⟨e1, e2, e3⟩ := extract_intensity_le_max d x hx
      obtain ⟨a, b, c⟩ := ih (extract_intensity d x).1 (by rw [e1, h1]) (fun j hj => h2 j (by simp [hj]))
      exact ⟨a.trans e2, b.trans e3, c⟩

/-- C10 (witness): the default-threshold theorem applied to the sample
sequence [0, 0.5, 0.25], none of which exceeds 0.5. -/
theorem C10_initial_max_witness :
    ({} : Decoder).max_intensity = 1/2 ∧
    (foldExtract {} [0, (1 : ℚ)/2, 1/4]).threshold_low = 1/10 ∧
    (foldExtract {} [0, (1 : ℚ)/2, 1/4]).threshold_high = 2/5 ∧
    (foldExtract {} [0, (1 : ℚ)/2, 1/4]).max_intensity = 1/2 :=
  C10_initial_max [0, (1 : ℚ)/2, 1/4] (by with_unfolding_all decide)

/-- Processing a state change while ON never extends the decoded text (the ON
branch only classifies the interval and appends to the symbol buffer). -/
lemma process_state_change_on_text (d : Decoder) (ns : Bool) (t : ℚ)
    (hon : d.current_state = true) :
    (process_state_change d ns t).decoded_text = d.decoded_text := by
  simp only [process_state_change]
  split
  · rfl
  · try dsimp only
    simp only [update_unit_estimate_text]
    split
    all_goals rfl

/-- Processing a non-debounced state change while ON appends exactly the
classified dot or dash to the symbol buffer and leaves the text unchanged. -/
lemma process_state_change_on_fields (d : Decoder) (ns : Bool) (t : ℚ)
    (hon : d.current_state = true) (hdur : 1/50 ≤ t - d.state_start_time) :
    (process_state_change d ns t).current_symbol =
      d.current_symbol ++
        [if (t - d.state_start_time) / d.unit_duration < 9/5 then '.' else '-'] ∧
    (process_state_change d ns t).decoded_text = d.decoded_text := by
  simp only [process_state_change]
  rw [if_neg (not_lt.mpr hdur)]
  try dsimp only
  simp only [update_unit_estimate_text, update_unit_estimate_symbol]
  rw [if_pos hon]
  have hcl : classify_duration
      { d with durations_on := dequePush 20 d.durations_on (t - d.state_start_time) }
      (t - d.state_start_time) true =
      (if (t - d.state_start_time) / d.unit_duration < 9/5
       then DurClass.dot else DurClass.dash) := by
    simp only [classify_duration]
    rfl
  rw [hcl]
  by_cases hdot : (t - d.state_start_time) / d.unit_duration < 9/5
  · rw [if_pos hdot, if_pos hdot]
    try dsimp only
    exact ⟨rfl, rfl⟩
  · rw [if_neg hdot, if_neg hdot]
    try dsimp only
    exact ⟨rfl, rfl⟩

/-- C4 (counterexample): in process_video the flush is an elif of the
synthesized-OFF branch, so a session ending while ON — here mid-letter A with
['.'] buffered and the final dash ON — gets the dash appended to the buffer by
the synthesized OFF transition but is never flushed: the decoded text stays
empty instead of containing the final character. -/
theorem C4_flush_counterexample :
    (finalize_video ({ current_state := true, current_symbol := ['.'] } : Decoder)
      (3/10)).decoded_text = "" ∧
    (finalize_video ({ current_state := true, current_symbol := ['.'] } : Decoder)
      (3/10)).current_symbol = ['.', '-'] := by
  constructor
  · with_unfolding_all rfl
  · with_unfolding_all rfl

/-- C4 (amended): when the stream ends OFF with a non-empty symbol buffer both
processors flush it to a character; when it ends ON, both synthesize an OFF
transition at lastTimestamp + 1, after which process_webcam flushes the buffer
(the synthesized interval being 1 s too long, the final symbol classifies by
the inflated duration) while process_video never extends the decoded text, so
the final character is lost there. -/
theorem C4_flush_on_end (d : Decoder) (lastT : ℚ) :
    (d.current_state = false → d.current_symbol ≠ [] →
      (finalize_video d lastT).decoded_text =
        d.decoded_text.push (morseLookup (String.mk d.current_symbol)) ∧
      (finalize_webcam d lastT).decoded_text =
        d.decoded_text.push (morseLookup (String.mk d.current_symbol))) ∧
    (d.current_state = true →
      (finalize_video d lastT).decoded_text = d.decoded_text) ∧
    (d.current_state = true → 1/50 ≤ lastT + 1 - d.state_start_time →
      (finalize_webcam d lastT).current_symbol = [] ∧
      (finalize_webcam d lastT).decoded_text =
        d.decoded_text.push (morseLookup (String.mk (d.current_symbol ++
          [if (lastT + 1 - d.state_start_time) / d.unit_duration < 9/5
           then '.' else '-'])))) := by
  refine ⟨?_, ?_, ?_⟩
  · intro hoff hne
    constructor
    · simp only [finalize_video]
      rw [if_neg (show ¬ (d.current_state = true) by simp [hoff]), if_pos hne]
      simp only [decode_symbol]
      rw [if_neg hne]
    · simp only [finalize_webcam]
      rw [if_neg (show ¬ (d.current_state = true) by simp [hoff]), if_pos hne]
      simp only [decode_symbol]
      rw [if_neg hne]
  · intro hon
    simp only [finalize_video]
    rw [if_pos hon]
    exact process_state_change_on_text d false (lastT + 1) hon
  · intro hon hdur
    simp only [finalize_webcam]
    rw [if_pos hon]
    obtain ⟨hs, ht⟩ := process_state_change_on_fields d false (lastT + 1) hon hdur
    have hne : (process_state_change d false (lastT + 1)).current_symbol ≠ [] := by
      rw [hs]
      simp
    rw [if_pos hne]
    simp only [decode_symbol]
    rw [if_neg hne]
    try dsimp only
    refine ⟨rfl, ?_⟩
    rw [hs, ht]

/-- C4 (witness): the amended flush theorem applied to a decoder ending OFF
with a pending dot (flushed to E by process_video) and to a decoder ending ON
mid-letter (flushed by process_webcam, buffer emptied). -/
theorem C4_flush_on_end_witness :
    (finalize_video ({ current_symbol := ['.'] } : Decoder) 0).decoded_text =
      ({ current_symbol := ['.'] } : Decoder).decoded_text.push
        (morseLookup (String.mk ({ current_symbol := ['.'] } : Decoder).current_symbol)) ∧
    (finalize_webcam ({ current_state := true, current_symbol := ['.'] } : Decoder)
      (3/10)).current_symbol = [] :=
  ⟨((C4_flush_on_end ({ current_symbol := ['.'] } : Decoder) 0).1 rfl (by decide)).1,
   ((C4_flush_on_end ({ current_state := true, current_symbol := ['.'] } : Decoder)
      (3/10)).2.2 rfl (by with_unfolding_all decide)).1⟩

end Morse
